import Mathlib

/-!
Verification of the DoomSat telemetry hook (src/hook.py).

The file embeds the telemetry core of hook.py — the `clamp` helper, the
CRC-32 checksum over a canonical JSON serialization, the tier-0 record
builder and delta tracker inside `T0.write_jsonl`, the fixed 14-byte
binary frame of `T0.write_fprime`, the cadence-driven recording loop of
`run_episode` / `play_manual`, and the episode summary record — as
executable Lean definitions, and proves the specification claims about
them.

Python machine details are modelled as follows: Python ints are `Int`
(arbitrary precision, as in Python); byte strings are `List Nat` with
each entry < 256; `time.time()` is an external input threaded as a
parameter; Python floats appearing in records are modelled as `ℚ`
with a deterministic rendering function (Python's `repr` of a float is
likewise a deterministic function of the value, which is all the
checksum claims depend on).
-/

namespace DoomSat

set_option maxRecDepth 100000

/-- Model of `clamp` (hook.py line 19): `lo if v < lo else hi if v > hi else v`. -/
def clamp (v lo hi : Int) : Int := if v < lo then lo else if v > hi then hi else v

/-- One bit-round of the zlib/gzip CRC-32: shift right, conditionally xor the
reflected polynomial 0xEDB88320. -/
def crcRound (c : Nat) : Nat := if c % 2 = 1 then (c / 2) ^^^ 0xEDB88320 else c / 2

/-- Process one byte of input into the CRC state (8 bit-rounds). -/
def crcByte (c b : Nat) : Nat := crcRound^[8] (c ^^^ b % 256)

/-- Model of Python's `zlib.crc32` over a byte string: the standard CRC-32
(zlib/gzip variant): initial value 0xFFFFFFFF, reflected polynomial
0xEDB88320, final xor 0xFFFFFFFF. -/
def crc32 (bs : List Nat) : Nat := (bs.foldl crcByte 0xFFFFFFFF) ^^^ 0xFFFFFFFF

/-- Lowercase hexadecimal digit for a value < 16. -/
def hexDigitChar (n : Nat) : Char := if n < 10 then Char.ofNat (48 + n) else Char.ofNat (87 + n)

/-- Model of the format string `f"{x:08x}"` for x < 2^32: exactly 8 lowercase,
zero-padded hex digits, most significant first. -/
def hex8 (n : Nat) : String :=
  String.mk ((List.range 8).map (fun i => hexDigitChar (n / 16 ^ (7 - i) % 16)))

/-- Four lowercase hex digits (used by the JSON string escape `\uXXXX`). -/
def hex4 (n : Nat) : String :=
  String.mk ((List.range 4).map (fun i => hexDigitChar (n / 16 ^ (3 - i) % 16)))

/-- Bytes of a string as natural numbers. The records of hook.py contain only
ASCII text, where UTF-8 bytes coincide with code points. -/
def strBytes (s : String) : List Nat := s.data.map Char.toNat

/-- Model of the escaping Python's `json.dumps` (with its default
`ensure_ascii=True`) applies to one character of a string: printable ASCII is
kept, the quote and backslash and common control characters get two-character
escapes, everything else becomes `\uXXXX`. -/
def escChar (c : Char) : String :=
  if c = '"' then "\\\"" else
  if c = '\\' then "\\\\" else
  if c = '\n' then "\\n" else
  if c = '\t' then "\\t" else
  if c = '\r' then "\\r" else
  if c.toNat = 8 then "\\b" else
  if c.toNat = 12 then "\\f" else
  if c.toNat < 32 ∨ 126 < c.toNat then "\\u" ++ hex4 c.toNat
  else String.singleton c

/-- A JSON string literal as `json.dumps` renders it. -/
def renderJStr (s : String) : String := "\"" ++ String.join (s.data.map escChar) ++ "\""

/-- Deterministic stand-in for Python's `repr` of a float. Only determinism
matters for the claims proved here: `repr` on floats is itself a pure function
of the value. Integral values render as Python does (`0.0`). -/
def renderFloat (q : ℚ) : String :=
  if q.den = 1 then toString q.num ++ ".0" else toString q.num ++ "r" ++ toString q.den

/-- JSON values as built by hook.py: strings, Python ints, Python floats
(modelled as `ℚ`), and objects as key/value lists in insertion order. -/
inductive Json where
  | jstr : String → Json
  | jint : Int → Json
  | jnum : ℚ → Json
  | jobj : List (String × Json) → Json

mutual

/-- Model of `json.dumps` with item separator `isep` and key separator `ksep`:
hook.py uses `(",", ":")` for the checksum input and the default `(", ", ": ")`
for the line actually written. Keys are rendered in list order. -/
def dumps (isep ksep : String) : Json → String
  | .jstr s => renderJStr s
  | .jint n => toString n
  | .jnum q => renderFloat q
  | .jobj kvs => "\x7b" ++ dumpsPairs isep ksep kvs ++ "\x7d"

/-- Renders the members of a JSON object, separated by `isep`. -/
def dumpsPairs (isep ksep : String) : List (String × Json) → String
  | [] => ""
  | [(k, v)] => renderJStr k ++ ksep ++ dumps isep ksep v
  | (k, v) :: rest => renderJStr k ++ ksep ++ dumps isep ksep v ++ isep ++ dumpsPairs isep ksep rest

end

/-- Key order used by `sort_keys=True`: lexicographic comparison of the keys. -/
def keyLe (a b : String × Json) : Bool := a.1 ≤ b.1

/-- Sorts the members of an object by key, lexicographically. -/
def sortKeys (kvs : List (String × Json)) : List (String × Json) := kvs.mergeSort keyLe

mutual

/-- Model of the `sort_keys=True` canonicalization of `json.dumps`: every
object, at every nesting level, has its members sorted by key. `json.dumps(rec,
separators=(",", ":"), sort_keys=True)` is modelled as `dumps "," ":" rec.canon`. -/
def Json.canon : Json → Json
  | .jstr s => .jstr s
  | .jint n => .jint n
  | .jnum q => .jnum q
  | .jobj kvs => .jobj (sortKeys (canonPairs kvs))

/-- Canonicalizes every value of an object member list. -/
def canonPairs : List (String × Json) → List (String × Json)
  | [] => []
  | (k, v) :: rest => (k, Json.canon v) :: canonPairs rest

end

/-- First match of a key in an object member list (Python dict keys are
unique, so this is dict lookup). -/
def lookupKey : List (String × Json) → String → Option Json
  | [], _ => none
  | (k1, v) :: rest, k => if k1 = k then some v else lookupKey rest k

/-- Field access on a JSON object. -/
def Json.getKey? : Json → String → Option Json
  | .jobj kvs, k => lookupKey kvs k
  | _, _ => none

mutual

/-- Keys are sorted lexicographically at every nesting level. -/
def KeysSortedAll : Json → Prop
  | .jobj kvs => List.Pairwise (fun a b => a.1 ≤ b.1) kvs ∧ PairsSortedAll kvs
  | _ => True

/-- Every value in an object member list has sorted keys at every level. -/
def PairsSortedAll : List (String × Json) → Prop
  | [] => True
  | (_, v) :: rest => KeysSortedAll v ∧ PairsSortedAll rest

end

/-- Model of hook.py lines 115–116 and 369–370: the checksum string of a
record, computed over the canonical serialization (compact separators, keys
sorted at every level) of the record as given — before any checksum field is
attached. -/
def checksumStr (j : Json) : String :=
  hex8 (crc32 (strBytes (dumps "," ":" j.canon)) &&& 0xffffffff)

/-- Model of `rec["crc32c"] = f"{zlib.crc32(body) & 0xffffffff:08x}"`: the
checksum of the record without the field is computed first, then attached as a
new last member (Python dict insertion order). -/
def attachCrc : Json → Json
  | .jobj kvs => .jobj (kvs ++ [("crc32c", .jstr (checksumStr (.jobj kvs)))])
  | j => j

/-- Python's `int()` on a rational: truncation toward zero (used for
`int(now)` and `int(now * 1000)`). -/
def truncQ (q : ℚ) : Int := q.num.tdiv (q.den : Int)

/-- The per-tick scalar state `write_jsonl` and `write_fprime` read from the
engine (hook.py lines 69–79 and 126–128), after the `hasattr` defaulting the
source applies: health, armor (default 0), kill count (default 0), pose
(defaults 0.0) and selected weapon slot (default 2). -/
structure Snapshot where
  health : Int
  armor : Int
  kills : Int
  px : ℚ
  py : ℚ
  pyaw : ℚ
  sel : Int

/-- The `ammo_used` dict as a JSON object member list. -/
def ammoJson (ammo : List (String × Int)) : List (String × Json) :=
  ammo.map (fun kv => (kv.1, Json.jint kv.2))

/-- Model of the delta section of `T0.write_jsonl` (hook.py lines 82–91): on
the first call (`prev_health is None`) the damage-in delta is 0, otherwise
`max(0, prev_health - h)`; damage-out and kills deltas are the clamped
differences against the stored baselines; the three current values become the
new baselines. Returns (deltas, new baselines). -/
def deltaStep (prev_health : Option Int) (prev_dmg_out prev_kills : Int)
    (h dmg_out_total kills : Int) : (Int × Int × Int) × (Option Int × Int × Int) :=
  let dmg_in_delta : Int :=
    match prev_health with
    | none => 0
    | some p => max 0 (p - h)
  let dmg_out_delta : Int := max 0 (dmg_out_total - prev_dmg_out)
  let kills_delta : Int := max 0 (kills - prev_kills)
  ((dmg_in_delta, dmg_out_delta, kills_delta), (some h, dmg_out_total, kills))

/-- The tier-0 record dict literal of `T0.write_jsonl` (hook.py lines 93–112),
members in Python insertion order: the fixed identity fields, then
`**base_meta` spliced verbatim, then level, instantaneous state, placeholder
sections, the combat deltas, and the outcome tag. -/
def tickFields (base_meta : List (String × Json)) (snap : Snapshot)
    (deltas : Int × Int × Int) (ammo : List (String × Int)) (step : Int) (now : ℚ) :
    List (String × Json) :=
  [("type", .jstr "tier0_telemetry"),
   ("schema", .jstr "v1"),
   ("unix_time", .jint (truncQ now)),
   ("unix_time_ms", .jint (truncQ (now * 1000))),
   ("step", .jint step)]
  ++ base_meta ++
  [("level", (lookupKey base_meta "level_start").getD (.jstr "E1M1")),
   ("health", .jint snap.health),
   ("armor", .jint snap.armor),
   ("selected_weapon", .jint snap.sel),
   ("pose", .jobj [("x", .jnum snap.px), ("y", .jnum snap.py), ("yaw_deg", .jnum snap.pyaw)]),
   ("keys", .jobj [("red", .jint 0), ("blue", .jint 0), ("yellow", .jint 0)]),
   ("secrets_found", .jint 0),
   ("resources", .jobj [("ammo_used", .jobj (ammoJson ammo)),
                        ("medkits_used", .jint 0), ("armor_picked", .jint 0)]),
   ("combat", .jobj [("dmg_in_delta", .jint deltas.1),
                     ("dmg_out_delta", .jint deltas.2.1),
                     ("kills_delta", .jint deltas.2.2)]),
   ("performance", .jobj [("avg_fps", .jint 0), ("avg_frame_ms", .jint 0),
                          ("cpu_pct", .jint 0), ("rss_mb", .jint 0), ("gc_events", .jint 0)]),
   ("faults", .jobj [("ecc_corrected", .jint 0), ("bitflips_injected", .jint 0),
                     ("watchdog_resets", .jint 0)]),
   ("outcome", .jstr "ALIVE")]

/-- The state of a `T0` recorder. A sink is modelled as `none` when no
destination was configured (`open(...) if path else None`, hook.py lines
52–53) and as `some bytes` — the bytes appended so far — when it is open. -/
structure T0State where
  jsonl : Option (List Nat)
  fbin : Option (List Nat)
  prev_health : Option Int
  prev_dmg_out : Int
  prev_kills : Int

/-- Model of `T0.__init__` (hook.py lines 51–56): each sink is open (an empty
append buffer) exactly when a destination path is supplied; the delta baselines
start as `None`, 0, 0. -/
def T0.init (jsonl_path fprime_path : Option String) : T0State :=
  { jsonl := jsonl_path.map (fun _ => [])
    fbin := fprime_path.map (fun _ => [])
    prev_health := none
    prev_dmg_out := 0
    prev_kills := 0 }

/-- Model of `T0.write_jsonl` (hook.py lines 62–120): computes the deltas and
stores the new baselines unconditionally, builds the record, computes and
attaches the checksum, and — only if the line sink is configured — appends the
default-separator serialization plus a newline to it. Returns the new state
and the record written (the source keeps it internal). -/
def write_jsonl (st : T0State) (base_meta : List (String × Json)) (snap : Snapshot)
    (dmg_out_total : Int) (ammo : List (String × Int)) (step : Int) (now : ℚ) :
    T0State × Json :=
  let ds := deltaStep st.prev_health st.prev_dmg_out st.prev_kills
    snap.health dmg_out_total snap.kills
  let recWithCrc := attachCrc (.jobj (tickFields base_meta snap ds.1 ammo step now))
  ({ st with
      prev_health := ds.2.1
      prev_dmg_out := ds.2.2.1
      prev_kills := ds.2.2.2
      jsonl := st.jsonl.map (fun buf => buf ++ strBytes (dumps ", " ": " recWithCrc ++ "\n")) },
   recWithCrc)

/-- Big-endian bytes of a 32-bit value (`struct.pack(">I", n)`). -/
def be32 (n : Nat) : List Nat := [n / 16777216 % 256, n / 65536 % 256, n / 256 % 256, n % 256]

/-- Big-endian bytes of a 16-bit value (`struct.pack(">H", n)`). -/
def be16 (n : Nat) : List Nat := [n / 256 % 256, n % 256]

/-- The 4-byte ASCII magic tag `b"DSF0"`. -/
def dsf0Magic : List Nat := [0x44, 0x53, 0x46, 0x30]

/-- The frame bytes of `struct.pack(">4sIHHH", magic, now, clamp(h,0,65535),
clamp(a,0,65535), clamp(kills,0,65535))` (hook.py line 129). -/
def fprimePkt (now : Nat) (h a kills : Int) : List Nat :=
  dsf0Magic ++ be32 now ++ be16 (clamp h 0 65535).toNat
    ++ be16 (clamp a 0 65535).toNat ++ be16 (clamp kills 0 65535).toNat

/-- Model of `T0.write_fprime` (hook.py lines 122–130): a silent no-op when
the frame sink is not configured, otherwise appends one fixed 14-byte frame. -/
def write_fprime (st : T0State) (snap : Snapshot) (now : Nat) : T0State :=
  match st.fbin with
  | none => st
  | some buf => { st with fbin := some (buf ++ fprimePkt now snap.health snap.armor snap.kills) }

/-- Big-endian value of a byte list. -/
def beVal (bs : List Nat) : Nat := bs.foldl (fun acc b => acc * 256 + b) 0

/-- Reader for one frame: checks the fixed 14-byte size and the magic tag,
then extracts the big-endian timestamp, health, armor and kill count. -/
def decodeFrame (bs : List Nat) : Option (List Nat × Nat × Nat × Nat × Nat) :=
  if bs.length = 14 ∧ bs.take 4 = dsf0Magic then
    some (bs.take 4, beVal ((bs.drop 4).take 4), beVal ((bs.drop 8).take 2),
          beVal ((bs.drop 10).take 2), beVal ((bs.drop 12).take 2))
  else none

/-- The session metadata literal of `play_manual` (hook.py line 193). -/
def metaManual : List (String × Json) :=
  [("run_id", .jstr "42"), ("episode_id", .jstr "manual"), ("algo_id", .jstr "manual"),
   ("git", .jstr "a1b2c3d"), ("rng_seed", .jint 123456), ("level_start", .jstr "E1M1")]

/-- The session metadata literal of `run_episode` (hook.py line 298). -/
def metaEpisode : List (String × Json) :=
  [("run_id", .jstr "42"), ("episode_id", .jstr "7"), ("algo_id", .jstr "linear-policy"),
   ("git", .jstr "a1b2c3d"), ("rng_seed", .jint 123456), ("level_start", .jstr "E1M1")]

/-- A malformed session metadata map: `run_id`, a required identifier, is
missing. -/
def metaNoRunId : List (String × Json) :=
  [("episode_id", .jstr "7"), ("algo_id", .jstr "linear-policy"),
   ("git", .jstr "a1b2c3d"), ("rng_seed", .jint 123456), ("level_start", .jstr "E1M1")]

/-- A snapshot whose only varying component is health; the engine's other
readings are held at their defaults. -/
def snapOfHealth (h : Int) : Snapshot :=
  { health := h, armor := 0, kills := 0, px := 0, py := 0, pyaw := 0, sel := 2 }

/-- The recording-cadence skeleton of the step loops of `run_episode` (hook.py
lines 308–341) and `play_manual` (lines 200–249): the step counter starts at 0
and is incremented at the top of each tick; after the engine action,
`if t0_every and step % t0_every == 0`, the tick record is written and a frame
emitted. The engine is abstracted to the supplied per-tick health values (the
policy/ammo bookkeeping is held constant). Returns the final recorder state and
the (step, record) pairs emitted. -/
def runTicks (t0_every : Nat) (meta : List (String × Json)) (st : T0State) (step : Nat) :
    List Int → T0State × List (Nat × Json)
  | [] => (st, [])
  | h :: rest =>
    let step1 := step + 1
    if t0_every ≠ 0 ∧ step1 % t0_every = 0 then
      let w := write_jsonl st meta (snapOfHealth h) 0 [] (step1 : Int) 0
      let st2 := write_fprime w.1 (snapOfHealth h) 0
      let res := runTicks t0_every meta st2 step1 rest
      (res.1, (step1, w.2) :: res.2)
    else
      runTicks t0_every meta st step1 rest

/-- The health sequence of the end-to-end cadence scenario. -/
def healthSeq : List Int := [100, 100, 95, 95, 90, 85, 85, 85, 80, 80, 75, 70]

/-- The `combat.dmg_in_delta` field of a record. -/
def combatDmgIn (j : Json) : Option Json :=
  (j.getKey? "combat").bind (fun c => c.getKey? "dmg_in_delta")

/-- The `damage.taken_total` field of a record. -/
def takenTotal (j : Json) : Option Json :=
  (j.getKey? "damage").bind (fun c => c.getKey? "taken_total")

/-- Model of Python's `random.choice(l)`: the element of `l` at a
nondeterministically chosen index, threaded here as the parameter `i`. -/
def randomChoice (l : List Int) (i : Nat) : Int := l.getD (i % l.length) 0

/-- Round-half-to-even on a rational, the rounding Python's `round` uses
(the binary floating-point representation error of the original is out of
scope of this model). -/
def roundHalfEven (q : ℚ) : Int :=
  if q - ⌊q⌋ = 1 / 2 then (if Even ⌊q⌋ then ⌊q⌋ else ⌊q⌋ + 1) else round q

/-- Python's `round(x, 2)`: round half-to-even at two decimal places. -/
def pyRound2 (q : ℚ) : ℚ := (roundHalfEven (q * 100) : ℚ) / 100

/-- The `duration_s` field of the episode summary (hook.py line 358):
`round(max(0.01, step/300.0), 2)`. -/
def duration_s (step : Nat) : ℚ := pyRound2 (max (1 / 100) ((step : ℚ) / 300))

/-- The episode summary dict literal of `run_episode` (hook.py lines 355–368),
members in Python insertion order. `randIdx` threads the index drawn by
`random.choice([60,72,84,90,96])` for `damage.taken_total`. -/
def summaryFields (step : Nat) (dmg_out_total : Int) (ammo : List (String × Int))
    (path_len : ℚ) (slow_ms : Nat) (now : Int) (randIdx : Nat) : List (String × Json) :=
  [("type", .jstr "episode_summary"), ("schema", .jstr "v1"), ("unix_time", .jint now),
   ("run_id", .jstr "42"), ("episode_id", .jstr "7"), ("algo_id", .jstr "linear-policy"),
   ("git", .jstr "a1b2c3d"), ("rng_seed", .jint 123456),
   ("level_start", .jstr "E1M1"), ("levels_completed", .jint 1), ("result", .jstr "UNKNOWN"),
   ("duration_s", .jnum (duration_s step)),
   ("deaths", .jint 0),
   ("damage", .jobj [("taken_total", .jint (randomChoice [60, 72, 84, 90, 96] randIdx)),
                     ("dealt_total", .jint dmg_out_total), ("dealt_by_enemy", .jobj [])]),
   ("resources", .jobj [("ammo_used", .jobj (ammoJson ammo)),
                        ("medkits_used", .jint 0), ("armor_picked", .jint 0)]),
   ("efficiency", .jobj [("dmg_per_ammo", .jobj []),
                         ("strong_targeting_pct", .jnum 0), ("overkill_pct", .jnum 0)]),
   ("performance", .jobj [("avg_fps", .jnum (if slow_ms ≠ 0 then
                              pyRound2 (1000 / max 1 (slow_ms : ℚ)) else 300)),
                          ("avg_frame_ms", .jnum (pyRound2 (if slow_ms ≠ 0 then
                              (slow_ms : ℚ) else 7 / 2))),
                          ("cpu_pct", .jint 0), ("rss_mb", .jint 0), ("gc_events", .jint 0)]),
   ("faults", .jobj [("ecc_corrected", .jint 0), ("bitflips_injected", .jint 0),
                     ("watchdog_resets", .jint 0)]),
   ("nav", .jobj [("path_len_m", .jnum (pyRound2 path_len)),
                  ("backtrack_pct", .jnum 0), ("stuck_events", .jint 0)]),
   ("kills", .jint 0)]

/-- The episode summary record with its checksum computed and attached
(hook.py lines 369–370), same contract as the per-tick record. -/
def episodeSummary (step : Nat) (dmg_out_total : Int) (ammo : List (String × Int))
    (path_len : ℚ) (slow_ms : Nat) (now : Int) (randIdx : Nat) : Json :=
  attachCrc (.jobj (summaryFields step dmg_out_total ammo path_len slow_ms now randIdx))

/-! Helper lemmas. -/

theorem clamp_bounds (v : Int) : 0 ≤ clamp v 0 65535 ∧ clamp v 0 65535 ≤ 65535 := by
  unfold clamp
  split
  · omega
  · split <;> omega

theorem beVal_be32 (n : Nat) (hn : n < 4294967296) : beVal (be32 n) = n := by
  simp only [beVal, be32, List.foldl]
  omega

theorem beVal_be16 (n : Nat) (hn : n < 65536) : beVal (be16 n) = n := by
  simp only [beVal, be16, List.foldl]
  omega

theorem decodeFrame_fprimePkt (now : Nat) (h a k : Int) (hn : now < 4294967296) :
    decodeFrame (fprimePkt now h a k) =
      some (dsf0Magic, now, (clamp h 0 65535).toNat, (clamp a 0 65535).toNat,
        (clamp k 0 65535).toNat) := by
  have hh := clamp_bounds h
  have ha := clamp_bounds a
  have hk := clamp_bounds k
  have hcond : (fprimePkt now h a k).length = 14 ∧ (fprimePkt now h a k).take 4 = dsf0Magic :=
    ⟨rfl, rfl⟩
  unfold decodeFrame
  rw [if_pos hcond]
  have e0 : (fprimePkt now h a k).take 4 = dsf0Magic := rfl
  have e1 : ((fprimePkt now h a k).drop 4).take 4 = be32 now := rfl
  have e2 : ((fprimePkt now h a k).drop 8).take 2 = be16 (clamp h 0 65535).toNat := rfl
  have e3 : ((fprimePkt now h a k).drop 10).take 2 = be16 (clamp a 0 65535).toNat := rfl
  have e4 : ((fprimePkt now h a k).drop 12).take 2 = be16 (clamp k 0 65535).toNat := rfl
  rw [e0, e1, e2, e3, e4, beVal_be32 now hn, beVal_be16 _ (by omega), beVal_be16 _ (by omega),
    beVal_be16 _ (by omega)]

/-! Claim theorems. -/

/-- C2: the delta tracker (the delta section of `T0.write_jsonl`) returns
damage-in exactly 0 on the very first call regardless of current health; on
calls with a stored baseline it returns `max(0, prev_health - h)`,
`max(0, dmg_out_total - prev_dmg_out)` and `max(0, kills - prev_kills)`, so
negative raw diffs clamp to zero; and the three current values are stored as
the new baselines, which `write_jsonl` installs in the recorder state. -/
theorem C2_delta_tracker :
    (∀ pd pk h d k : Int, deltaStep none pd pk h d k
        = ((0, max 0 (d - pd), max 0 (k - pk)), (some h, d, k)))
    ∧ (∀ p pd pk h d k : Int, deltaStep (some p) pd pk h d k
        = ((max 0 (p - h), max 0 (d - pd), max 0 (k - pk)), (some h, d, k)))
    ∧ (∀ (st : T0State) meta snap dmg ammo step now,
        (write_jsonl st meta snap dmg ammo step now).1.prev_health = some snap.health
        ∧ (write_jsonl st meta snap dmg ammo step now).1.prev_dmg_out = dmg
        ∧ (write_jsonl st meta snap dmg ammo step now).1.prev_kills = snap.kills) :=
  ⟨fun _ _ _ _ _ => rfl, fun _ _ _ _ _ _ => rfl, fun _ _ _ _ _ _ _ => ⟨rfl, rfl, rfl⟩⟩

/-- C4: every frame of the frame sink is exactly 14 bytes — the ASCII magic
tag `DSF0`, a 4-byte big-endian timestamp, then 2-byte big-endian health,
armor and kill count — and decoding a written frame recovers exactly the
encoded values. -/
theorem C4_frame_layout_roundtrip (now : Nat) (h a k : Int) (hn : now < 4294967296) :
    (fprimePkt now h a k).length = 14
    ∧ dsf0Magic = strBytes "DSF0"
    ∧ fprimePkt now h a k = dsf0Magic ++ be32 now ++ be16 (clamp h 0 65535).toNat
        ++ be16 (clamp a 0 65535).toNat ++ be16 (clamp k 0 65535).toNat
    ∧ decodeFrame (fprimePkt now h a k) =
        some (dsf0Magic, now, (clamp h 0 65535).toNat, (clamp a 0 65535).toNat,
          (clamp k 0 65535).toNat) :=
  ⟨rfl, rfl, rfl, decodeFrame_fprimePkt now h a k hn⟩

/-- Witness for C4 at the spec's concrete example: health 57, armor 32,
kills 4 at a fixed timestamp decode back exactly, from a 14-byte frame. -/
theorem C4_frame_layout_roundtrip_witness :
    decodeFrame (fprimePkt 1700000000 57 32 4) = some (dsf0Magic, 1700000000, 57, 32, 4)
    ∧ (fprimePkt 1700000000 57 32 4).length = 14 := by
  have h := C4_frame_layout_roundtrip 1700000000 57 32 4 (by norm_num)
  refine ⟨?_, h.1⟩
  rw [h.2.2.2]
  rfl

/-- C5: the 16-bit fields of the frame sink hold the saturating clamp of the
supplied value into [0, 65535]: `clamp v 0 65535 = max 0 (min v 65535)`, every
frame encodes the clamped values, and health 70000 encodes (and decodes) as
65535 — not the modular wraparound 70000 mod 65536 = 4464, and not an error. -/
theorem C5_clamp_saturates :
    (∀ v : Int, clamp v 0 65535 = max 0 (min v 65535))
    ∧ clamp 70000 0 65535 = 65535
    ∧ (∀ (now : Nat) (h a k : Int), fprimePkt now h a k = dsf0Magic ++ be32 now
        ++ be16 (clamp h 0 65535).toNat ++ be16 (clamp a 0 65535).toNat
        ++ be16 (clamp k 0 65535).toNat)
    ∧ decodeFrame (fprimePkt 1700000000 70000 0 0) = some (dsf0Magic, 1700000000, 65535, 0, 0)
    ∧ (70000 : Int) % 65536 = 4464 ∧ (65535 : Int) ≠ 4464 := by
  refine ⟨?_, by decide, fun _ _ _ _ => rfl, ?_, by decide, by decide⟩
  · intro v
    unfold clamp
    split
    · omega
    · split <;> omega
  · rw [decodeFrame_fprimePkt 1700000000 70000 0 0 (by norm_num)]
    rfl

/-- C6: a sink with no destination configured is a silent no-op: the write
paths are total, write nothing to a disabled sink, and the two sinks are
independent (a configured frame sink still receives its frame while the line
sink is disabled, and vice versa). -/
theorem C6_disabled_sink_noop :
    (∀ (st : T0State) meta snap dmg ammo step now, st.jsonl = none →
        (write_jsonl st meta snap dmg ammo step now).1.jsonl = none)
    ∧ (∀ (st : T0State) snap fnow, st.fbin = none → write_fprime st snap fnow = st)
    ∧ (∀ meta snap dmg ammo step now fnow,
        (write_fprime (write_jsonl (T0.init none none) meta snap dmg ammo step now).1
          snap fnow).jsonl = none
        ∧ (write_fprime (write_jsonl (T0.init none none) meta snap dmg ammo step now).1
          snap fnow).fbin = none)
    ∧ (∀ snap fnow, (write_fprime (T0.init none (some "frames.bin")) snap fnow).fbin
        = some (fprimePkt fnow snap.health snap.armor snap.kills))
    ∧ (∀ (st : T0State) meta snap dmg ammo step now,
        (write_jsonl st meta snap dmg ammo step now).1.fbin = st.fbin) := by
  refine ⟨?_, ?_, fun _ _ _ _ _ _ _ => ⟨rfl, rfl⟩, fun _ _ => rfl, fun _ _ _ _ _ _ _ => rfl⟩
  · rintro ⟨j, f, ph, pd, pk⟩ meta snap dmg ammo step now hj
    cases hj
    rfl
  · rintro ⟨j, f, ph, pd, pk⟩ snap fnow hf
    cases hf
    rfl

/-- Witness for C6: with both sinks unconfigured, a tick write leaves the line
sink empty and the frame write is the identity. -/
theorem C6_disabled_sink_noop_witness :
    (write_jsonl (T0.init none none) metaEpisode (snapOfHealth 100) 0 [] 1 0).1.jsonl = none
    ∧ write_fprime (T0.init none none) (snapOfHealth 100) 0 = T0.init none none :=
  ⟨C6_disabled_sink_noop.1 (T0.init none none) metaEpisode (snapOfHealth 100) 0 [] 1 0 rfl,
   C6_disabled_sink_noop.2.1 (T0.init none none) (snapOfHealth 100) 0 rfl⟩

/-- C10: every call to `write_jsonl` installs the current health, cumulative
damage and kills as the new delta baselines, also when the line sink is
disabled; the sink configuration changes neither the baselines nor the record
produced, only whether bytes are written. -/
theorem C10_baselines_updated_even_when_disabled :
    ∀ (st : T0State) meta snap dmg ammo step now,
      ((write_jsonl st meta snap dmg ammo step now).1.prev_health = some snap.health
        ∧ (write_jsonl st meta snap dmg ammo step now).1.prev_dmg_out = dmg
        ∧ (write_jsonl st meta snap dmg ammo step now).1.prev_kills = snap.kills)
      ∧ (st.jsonl = none → (write_jsonl st meta snap dmg ammo step now).1.jsonl = none)
      ∧ (∀ cfg : Option (List Nat),
          (write_jsonl { st with jsonl := cfg } meta snap dmg ammo step now).1.prev_health
            = (write_jsonl st meta snap dmg ammo step now).1.prev_health
          ∧ (write_jsonl { st with jsonl := cfg } meta snap dmg ammo step now).1.prev_dmg_out
            = (write_jsonl st meta snap dmg ammo step now).1.prev_dmg_out
          ∧ (write_jsonl { st with jsonl := cfg } meta snap dmg ammo step now).1.prev_kills
            = (write_jsonl st meta snap dmg ammo step now).1.prev_kills
          ∧ (write_jsonl { st with jsonl := cfg } meta snap dmg ammo step now).2
            = (write_jsonl st meta snap dmg ammo step now).2) := by
  rintro ⟨j, f, ph, pd, pk⟩ meta snap dmg ammo step now
  refine ⟨⟨rfl, rfl, rfl⟩, ?_, fun cfg => ⟨rfl, rfl, rfl, rfl⟩⟩
  intro hj
  cases hj
  rfl

/-- Witness for C10: with the line sink disabled and the frame sink enabled,
a tick write still installs the baselines and writes no line bytes. -/
theorem C10_baselines_updated_even_when_disabled_witness :
    (write_jsonl (T0.init none (some "f.bin")) metaManual (snapOfHealth 42) 7 [] 3 0).1.prev_health
      = some 42
    ∧ (write_jsonl (T0.init none (some "f.bin")) metaManual (snapOfHealth 42) 7 [] 3 0).1.jsonl
      = none := by
  have h := C10_baselines_updated_even_when_disabled
    (T0.init none (some "f.bin")) metaManual (snapOfHealth 42) 7 [] 3 0
  exact ⟨h.1.1, h.2.1 rfl⟩

theorem takenTotal_episodeSummary (step : Nat) (dmg : Int) (ammo : List (String × Int))
    (plen : ℚ) (slow : Nat) (now : Int) (i : Nat) :
    takenTotal (episodeSummary step dmg ammo plen slow now i)
      = some (Json.jint (randomChoice [60, 72, 84, 90, 96] i)) := rfl

/-- C8: the episode summary's `damage.taken_total` is the random draw from the
fixed set 60, 72, 84, 90, 96 — a member of that set for every possible draw —
and is independent of every other input of the summary builder (the damage
actually taken is not even an input). -/
theorem C8_summary_taken_total_random :
    (∀ (step : Nat) (dmg : Int) (ammo : List (String × Int)) (plen : ℚ) (slow : Nat)
        (now : Int) (i : Nat),
        takenTotal (episodeSummary step dmg ammo plen slow now i)
          = some (Json.jint (randomChoice [60, 72, 84, 90, 96] i)))
    ∧ (∀ i : Nat, randomChoice [60, 72, 84, 90, 96] i ∈ ([60, 72, 84, 90, 96] : List Int))
    ∧ (∀ step dmg ammo plen slow now step2 dmg2 ammo2 plen2 slow2 now2 (i : Nat),
        takenTotal (episodeSummary step dmg ammo plen slow now i)
          = takenTotal (episodeSummary step2 dmg2 ammo2 plen2 slow2 now2 i)) := by
  refine ⟨takenTotal_episodeSummary, ?_,
    fun step dmg ammo plen slow now step2 dmg2 ammo2 plen2 slow2 now2 i =>
      (takenTotal_episodeSummary step dmg ammo plen slow now i).trans
        (takenTotal_episodeSummary step2 dmg2 ammo2 plen2 slow2 now2 i).symm⟩
  intro i
  have h5 : i % 5 = 0 ∨ i % 5 = 1 ∨ i % 5 = 2 ∨ i % 5 = 3 ∨ i % 5 = 4 := by omega
  have hlen : ([60, 72, 84, 90, 96] : List Int).length = 5 := rfl
  unfold randomChoice
  rw [hlen]
  rcases h5 with h | h | h | h | h <;> rw [h] <;> decide

/-- C7 counterexample: with session metadata missing the required `run_id`
identifier, the recording session is not rejected — the very first cadence
tick still emits a full record (which simply lacks the `run_id` field), so the
system does not fail fast at session start. -/
theorem C7_no_session_start_validation :
    (runTicks 1 metaNoRunId (T0.init (some "t0.jsonl") none) 0 [100]).2.length = 1
    ∧ ((runTicks 1 metaNoRunId (T0.init (some "t0.jsonl") none) 0 [100]).2.getD 0
        (0, Json.jobj [])).2.getKey? "run_id" = none
    ∧ ((runTicks 1 metaNoRunId (T0.init (some "t0.jsonl") none) 0 [100]).2.getD 0
        (0, Json.jobj [])).2.getKey? "health" = some (Json.jint 100) :=
  ⟨rfl, rfl, rfl⟩

/-- C7 amended: no session-metadata validation exists anywhere — `write_jsonl`
embeds whatever metadata it is given and emits a record regardless — and
malformed metadata cannot arise in the shipped entry points because both
hardcoded metadata literals contain every required identifier. -/
theorem C7_metadata_amended :
    (["run_id", "episode_id", "algo_id", "git", "rng_seed", "level_start"].all
        (fun k => (lookupKey metaEpisode k).isSome && (lookupKey metaManual k).isSome)) = true
    ∧ (∀ meta (st : T0State) snap dmg ammo step now,
        (write_jsonl st meta snap dmg ammo step now).2.getKey? "type"
          = some (Json.jstr "tier0_telemetry")) :=
  ⟨by decide, fun _ _ _ _ _ _ _ => rfl⟩

theorem le_roundHalfEven (q : ℚ) : ⌊q⌋ ≤ roundHalfEven q := by
  unfold roundHalfEven
  split
  · split <;> omega
  · rw [round_eq]
    exact Int.floor_le_floor (by linarith)

theorem roundHalfEven_close (q : ℚ) : |(roundHalfEven q : ℚ) - q| ≤ 1 / 2 := by
  unfold roundHalfEven
  split
  · rename_i h
    have hf := Int.floor_le q
    split
    · rw [abs_le]
      constructor <;> linarith
    · push_cast
      rw [abs_le]
      constructor <;> linarith
  · rw [abs_sub_comm]
    exact abs_sub_round q

theorem roundHalfEven_intCast (n : ℤ) : roundHalfEven (n : ℚ) = n := by
  unfold roundHalfEven
  rw [Int.floor_intCast]
  have hz : (n : ℚ) - n = 0 := by ring
  rw [hz, if_neg (by norm_num)]
  exact round_intCast n

theorem duration_s_eval (step : Nat) (n : ℤ) (h : max (1 / 100) ((step : ℚ) / 300) * 100 = n) :
    duration_s step = (n : ℚ) / 100 := by
  unfold duration_s pyRound2
  rw [h, roundHalfEven_intCast]

/-- C9 counterexample: the summary's duration is not `step/300.0` for every
step count — at `step = 1` the code emits `round(max(0.01, 1/300), 2) = 0.01`,
which differs from `1/300`. -/
theorem C9_duration_not_step_over_300 :
    duration_s 1 = 1 / 100 ∧ ((1 : ℚ) / 300 ≠ 1 / 100) := by
  constructor
  · rw [duration_s_eval 1 1 (by rw [max_eq_left (by norm_num)]; norm_num)]
    norm_num
  · norm_num

/-- C9 amended: the summary's duration is `round(max(0.01, step/300.0), 2)` —
the nominal step/300 value clamped below at 0.01 and rounded to two decimal
places: it never falls below 0.01, stays within 1/200 of the clamped nominal
value, and agrees with step/300 exactly when that value is a representable
two-decimal quantity at least 0.01 (e.g. steps 3 and 9000). -/
theorem C9_duration_amended :
    (∀ step : Nat, duration_s step = pyRound2 (max (1 / 100) ((step : ℚ) / 300)))
    ∧ (∀ step : Nat, 1 / 100 ≤ duration_s step)
    ∧ (∀ step : Nat, |duration_s step - max (1 / 100) ((step : ℚ) / 300)| ≤ 1 / 200)
    ∧ duration_s 0 = 1 / 100 ∧ duration_s 3 = 1 / 100 ∧ duration_s 9000 = 30 := by
  have key : ∀ step : Nat, 1 / 100 ≤ duration_s step := by
    intro step
    unfold duration_s pyRound2
    have hm : (1 : ℚ) / 100 ≤ max (1 / 100) ((step : ℚ) / 300) := le_max_left _ _
    have h1 : (1 : ℚ) ≤ max (1 / 100) ((step : ℚ) / 300) * 100 := by linarith
    have h2 : (1 : ℤ) ≤ ⌊max (1 / 100) ((step : ℚ) / 300) * 100⌋ := by
      rw [Int.le_floor]
      exact_mod_cast h1
    have h3 := le_roundHalfEven (max (1 / 100) ((step : ℚ) / 300) * 100)
    have h4 : (1 : ℚ) ≤ (roundHalfEven (max (1 / 100) ((step : ℚ) / 300) * 100) : ℚ) := by
      exact_mod_cast le_trans h2 h3
    linarith
  refine ⟨fun _ => rfl, key, ?_, ?_, ?_, ?_⟩
  · intro step
    have hc := roundHalfEven_close (max (1 / 100) ((step : ℚ) / 300) * 100)
    unfold duration_s pyRound2
    rw [abs_le] at hc ⊢
    obtain ⟨h1, h2⟩ := hc
    constructor <;> linarith
  · rw [duration_s_eval 0 1 (by rw [max_eq_left (by norm_num)]; norm_num)]
    norm_num
  · rw [duration_s_eval 3 1 (by rw [max_eq_left (by norm_num)]; norm_num)]
    norm_num
  · rw [duration_s_eval 9000 3000 (by rw [max_eq_right (by norm_num)]; norm_num)]
    norm_num

theorem runTicks_steps (N : Nat) (meta : List (String × Json)) :
    ∀ (hs : List Int) (st : T0State) (step : Nat),
      ((runTicks N meta st step hs).2.map Prod.fst)
        = (List.range' (step + 1) hs.length).filter
            (fun s => decide (N ≠ 0) && decide (s % N = 0)) := by
  intro hs
  induction hs with
  | nil =>
    intro st step
    simp [runTicks]
  | cons h rest ih =>
    intro st step
    rw [List.length_cons, List.range'_succ, List.filter_cons]
    by_cases hc : N ≠ 0 ∧ (step + 1) % N = 0
    · have hb : (decide (N ≠ 0) && decide ((step + 1) % N = 0)) = true := by
        simp [hc.1, hc.2]
      rw [if_pos hb]
      simp only [runTicks, if_pos hc, List.map_cons]
      rw [ih]
    · have hb : (decide (N ≠ 0) && decide ((step + 1) % N = 0)) = false := by
        rcases Decidable.not_and_iff_or_not.mp hc with h1 | h1 <;> simp [h1]
      rw [if_neg (by rw [hb]; exact Bool.false_ne_true)]
      simp only [runTicks, if_neg hc]
      rw [ih]

theorem runTicks_zero (meta : List (String × Json)) :
    ∀ (hs : List Int) (st : T0State) (step : Nat), (runTicks 0 meta st step hs).2 = [] := by
  intro hs
  induction hs with
  | nil =>
    intro st step
    simp [runTicks]
  | cons h rest ih =>
    intro st step
    simp only [runTicks, if_neg (by simp : ¬((0 : Nat) ≠ 0 ∧ (step + 1) % 0 = 0))]
    exact ih st (step + 1)

/-- C3: a telemetry record is emitted exactly at the steps where the cadence N
is nonzero and the step counter is divisible by N; cadence 0 disables
recording entirely; and in the end-to-end scenario (cadence 5, 12 ticks,
health 100,100,95,95,90,85,85,85,80,80,75,70) exactly two records are
emitted, at steps 5 and 10, whose damage-in deltas are 0 (first tracker call)
and 10 — the health lost since the previous emitted record, spanning the whole
cadence window. -/
theorem C3_cadence_emission :
    (∀ (N : Nat) (meta : List (String × Json)) (st : T0State) (step : Nat) (hs : List Int),
        ((runTicks N meta st step hs).2.map Prod.fst)
          = (List.range' (step + 1) hs.length).filter
              (fun s => decide (N ≠ 0) && decide (s % N = 0)))
    ∧ (∀ (meta : List (String × Json)) (st : T0State) (step : Nat) (hs : List Int),
        (runTicks 0 meta st step hs).2 = [])
    ∧ (runTicks 5 metaEpisode (T0.init (some "t0.jsonl") none) 0 healthSeq).2.map Prod.fst
        = [5, 10]
    ∧ (runTicks 5 metaEpisode (T0.init (some "t0.jsonl") none) 0 healthSeq).2.map
        (fun p => combatDmgIn p.2) = [some (Json.jint 0), some (Json.jint 10)] :=
  ⟨fun N meta st step hs => runTicks_steps N meta hs st step,
   fun meta st step hs => runTicks_zero meta hs st step, rfl, rfl⟩

/-! Lemmas for the checksum claim. -/

theorem hex8_length (n : Nat) : (hex8 n).length = 8 := by
  simp [hex8, String.length]

theorem hexDigitChar_mem : ∀ d : Fin 16, hexDigitChar d.val ∈ ("0123456789abcdef").data := by
  decide

theorem hex8_chars (n : Nat) : ∀ c ∈ (hex8 n).data, c ∈ ("0123456789abcdef").data := by
  intro c hc
  simp only [hex8, String.data, List.mem_map, List.mem_range] at hc
  obtain ⟨i, _, rfl⟩ := hc
  exact hexDigitChar_mem ⟨n / 16 ^ (7 - i) % 16, Nat.mod_lt _ (by norm_num)⟩

theorem keyLe_trans (a b c : String × Json) (hab : keyLe a b = true) (hbc : keyLe b c = true) :
    keyLe a c = true := by
  simp only [keyLe, decide_eq_true_eq] at hab hbc ⊢
  exact le_trans hab hbc

theorem keyLe_total (a b : String × Json) : (keyLe a b || keyLe b a) = true := by
  simp only [keyLe, Bool.or_eq_true, decide_eq_true_eq]
  exact le_total a.1 b.1

theorem sortKeys_sorted (l : List (String × Json)) :
    List.Pairwise (fun a b : String × Json => a.1 ≤ b.1) (sortKeys l) := by
  have h := List.sorted_mergeSort keyLe_trans keyLe_total l
  exact h.imp (fun hab => by simpa [keyLe] using hab)

theorem sortKeys_perm (l : List (String × Json)) : (sortKeys l).Perm l :=
  List.mergeSort_perm l keyLe

theorem pairsSortedAll_iff (l : List (String × Json)) :
    PairsSortedAll l ↔ ∀ p ∈ l, KeysSortedAll p.2 := by
  induction l with
  | nil => simp [PairsSortedAll]
  | cons p rest ih =>
    obtain ⟨k, v⟩ := p
    simp [PairsSortedAll, ih]

theorem pairsSortedAll_perm {l1 l2 : List (String × Json)} (h : l1.Perm l2) :
    PairsSortedAll l1 ↔ PairsSortedAll l2 := by
  rw [pairsSortedAll_iff, pairsSortedAll_iff]
  constructor <;> intro hall p hp
  · exact hall p (h.mem_iff.mpr hp)
  · exact hall p (h.mem_iff.mp hp)

mutual

theorem canon_sorted : ∀ j : Json, KeysSortedAll j.canon
  | .jstr s => by simp [Json.canon, KeysSortedAll]
  | .jint n => by simp [Json.canon, KeysSortedAll]
  | .jnum q => by simp [Json.canon, KeysSortedAll]
  | .jobj kvs => by
    have hp := canonPairs_sorted kvs
    simp only [Json.canon, KeysSortedAll]
    exact ⟨sortKeys_sorted _, (pairsSortedAll_perm (sortKeys_perm (canonPairs kvs))).mpr hp⟩

theorem canonPairs_sorted : ∀ l : List (String × Json), PairsSortedAll (canonPairs l)
  | [] => by simp [canonPairs, PairsSortedAll]
  | (k, v) :: rest => by
    have h1 := canon_sorted v
    have h2 := canonPairs_sorted rest
    simp only [canonPairs, PairsSortedAll]
    exact ⟨h1, h2⟩

end

theorem canonPairs_eq_map (l : List (String × Json)) :
    canonPairs l = l.map (fun p => (p.1, p.2.canon)) := by
  induction l with
  | nil => simp [canonPairs]
  | cons p rest ih =>
    obtain ⟨k, v⟩ := p
    simp [canonPairs, ih]

theorem sortKeys_congr_perm {l1 l2 : List (String × Json)} (hperm : l1.Perm l2)
    (hnd : (l1.map Prod.fst).Nodup) : sortKeys l1 = sortKeys l2 := by
  have hp1 : (sortKeys l1).Perm l1 := sortKeys_perm l1
  have hp2 : (sortKeys l2).Perm l2 := sortKeys_perm l2
  have hp : (sortKeys l1).Perm (sortKeys l2) := hp1.trans (hperm.trans hp2.symm)
  have hnd1 : ((sortKeys l1).map Prod.fst).Nodup := ((hp1.map Prod.fst).nodup_iff).mpr hnd
  have hnd2 : ((sortKeys l2).map Prod.fst).Nodup := by
    have hnd2a : (l2.map Prod.fst).Nodup := ((hperm.map Prod.fst).nodup_iff).mp hnd
    exact ((hp2.map Prod.fst).nodup_iff).mpr hnd2a
  have key1 : List.Pairwise (fun a b : String × Json => a.1 ≠ b.1) (sortKeys l1) :=
    List.pairwise_map.mp hnd1
  have key2 : List.Pairwise (fun a b : String × Json => a.1 ≠ b.1) (sortKeys l2) :=
    List.pairwise_map.mp hnd2
  have hlt1 : List.Pairwise (fun a b : String × Json => a.1 < b.1) (sortKeys l1) :=
    ((sortKeys_sorted l1).and key1).imp (fun hab => lt_of_le_of_ne hab.1 hab.2)
  have hlt2 : List.Pairwise (fun a b : String × Json => a.1 < b.1) (sortKeys l2) :=
    ((sortKeys_sorted l2).and key2).imp (fun hab => lt_of_le_of_ne hab.1 hab.2)
  haveI : IsAntisymm (String × Json) (fun a b => a.1 < b.1) :=
    ⟨fun a b h1 h2 => absurd h2 (lt_asymm h1)⟩
  exact List.eq_of_perm_of_sorted hp hlt1 hlt2

theorem canon_jobj_perm {kvs1 kvs2 : List (String × Json)} (hperm : kvs1.Perm kvs2)
    (hnd : (kvs1.map Prod.fst).Nodup) :
    Json.canon (.jobj kvs1) = Json.canon (.jobj kvs2) := by
  simp only [Json.canon]
  congr 1
  apply sortKeys_congr_perm
  · rw [canonPairs_eq_map, canonPairs_eq_map]
    exact hperm.map _
  · rw [canonPairs_eq_map]
    have hkeys : (kvs1.map (fun p : String × Json => (p.1, p.2.canon))).map Prod.fst
        = kvs1.map Prod.fst := by
      rw [List.map_map]
      rfl
    rw [hkeys]
    exact hnd

/-- C1: for every telemetry record the checksum is computed over the canonical
serialization (compact separators, keys sorted lexicographically at every
nesting level) of the record with the checksum field absent — the record
carries no `crc32c` member before attachment, and attachment appends the
computed value afterwards; the CRC is the zlib/gzip CRC-32 (check value
`cbf43926` on `123456789`, not the CRC-32C value `e3069283`); the result is
exactly 8 lowercase zero-padded hex digits; and records with identical field
values — equal canonical forms, in particular objects that are key
permutations of one another — yield identical checksums. -/
theorem C1_checksum_contract :
    (∀ kvs : List (String × Json),
        attachCrc (.jobj kvs) = .jobj (kvs ++ [("crc32c",
          .jstr (hex8 (crc32 (strBytes (dumps "," ":" (Json.canon (.jobj kvs))))
            &&& 0xffffffff)))]))
    ∧ crc32 (strBytes "123456789") = 0xcbf43926
    ∧ (∀ j : Json, (checksumStr j).length = 8
        ∧ ∀ c ∈ (checksumStr j).data, c ∈ ("0123456789abcdef").data)
    ∧ (∀ j : Json, KeysSortedAll j.canon)
    ∧ (∀ r1 r2 : Json, r1.canon = r2.canon → checksumStr r1 = checksumStr r2)
    ∧ (∀ kvs1 kvs2 : List (String × Json), kvs1.Perm kvs2 → (kvs1.map Prod.fst).Nodup →
        checksumStr (.jobj kvs1) = checksumStr (.jobj kvs2))
    ∧ (∀ snap deltas ammo step now,
        lookupKey (tickFields metaEpisode snap deltas ammo step now) "crc32c" = none)
    ∧ (∀ snap deltas ammo step now,
        lookupKey (tickFields metaManual snap deltas ammo step now) "crc32c" = none)
    ∧ (∀ step dmg ammo plen slow now i,
        lookupKey (summaryFields step dmg ammo plen slow now i) "crc32c" = none) :=
  ⟨fun _ => rfl, by decide, fun j => ⟨hex8_length _, hex8_chars _⟩, canon_sorted,
   fun r1 r2 h => by unfold checksumStr; rw [h],
   fun kvs1 kvs2 hperm hnd => by unfold checksumStr; rw [canon_jobj_perm hperm hnd],
   fun _ _ _ _ _ => rfl, fun _ _ _ _ _ => rfl, fun _ _ _ _ _ _ _ => rfl⟩

/-- Witness for C1: two objects with the same fields inserted in different
orders have the same checksum, and the CRC matches the zlib check value. -/
theorem C1_checksum_contract_witness :
    checksumStr (Json.jobj [("a", Json.jint 1), ("b", Json.jint 2)])
      = checksumStr (Json.jobj [("b", Json.jint 2), ("a", Json.jint 1)])
    ∧ crc32 (strBytes "123456789") = 0xcbf43926 :=
  ⟨C1_checksum_contract.2.2.2.2.2.1 _ _ (List.Perm.swap _ _ _) (by decide),
   C1_checksum_contract.2.1⟩

end DoomSat
